import Mathlib

/-
Verification of the image-inventory pipeline (product distribution via a task
queue, per-product image classification, schema generation).  The definitions
below are a shallow embedding of the Python sources:
  - src/shared/common.py                (Product, ProductFilter)
  - src/push_products/push_products_lib.py   (ProductPusher.push_products)
  - src/classify_product/classify_product_lib.py (ProductClassifier)
  - terraform/modules/bigquery/helpers/generate_table_schema.py
External collaborators (HTTP host, Gemini file store and model, BigQuery,
Cloud Tasks) are modelled as oracle functions supplied in an environment
record; every external call is additionally recorded in an event trace so
that ordering and resource-release properties can be stated.
-/

set_option autoImplicit false

namespace ImageInventory

/-- Image type classification enum (config/structured_output.py, ImageType). -/
inductive ImageType
  | silo
  | stylized_silo
  | lifestyle
  | group
  | closeup
  | swatch
  | unknown
  deriving DecidableEq, Repr

/-- String value carried by each ImageType enum member. -/
def ImageType.value : ImageType → String
  | .silo => "silo"
  | .stylized_silo => "stylized_silo"
  | .lifestyle => "lifestyle"
  | .group => "group"
  | .closeup => "closeup"
  | .swatch => "swatch"
  | .unknown => "unknown"

/-- Structured output for the image labeling prompt
(config/structured_output.py, LabeledImage TypedDict). -/
structure LabeledImage where
  type : ImageType
  deriving DecidableEq, Repr

/-- Product data class (src/shared/common.py).  The dataclass annotations give
title, product_type and brand as plain str, but the classifier explicitly
checks them against None, so they are embedded as optional. -/
structure Product where
  offer_id : String
  merchant_id : Int
  aggregator_id : Int
  title : Option String
  product_type : Option String
  brand : Option String
  image_link : Option String
  additional_image_links : List String
  deriving DecidableEq, Repr

/-- Python truthiness of an optional string: None and the empty string are
falsy, every other string is truthy. -/
def optStrTruthy : Option String → Bool
  | none => false
  | some s => !s.isEmpty

/-- Python truthiness of an optional list: None and the empty list are falsy. -/
def optListTruthy : Option (List String) → Bool
  | none => false
  | some l => !l.isEmpty

/-- Error raised for an invalid product filter (src/shared/common.py,
ProductFilterError). -/
inductive CommonError
  | productFilterError (msg : String)
  deriving DecidableEq, Repr

/-- Product filter dataclass (src/shared/common.py, ProductFilter). -/
structure ProductFilter where
  product_type : Option String
  brands : Option (List String)
  offer_ids : Option (List String)
  deriving DecidableEq, Repr

/-- Dataclass construction including the `__post_init__` validation of
ProductFilter: if none of product_type, brands, offer_ids is truthy, a
ProductFilterError is raised before the object exists (and hence before any
query can run). -/
def ProductFilter.make (product_type : Option String) (brands : Option (List String))
    (offer_ids : Option (List String)) : Except CommonError ProductFilter :=
  if !optStrTruthy product_type && !optListTruthy brands && !optListTruthy offer_ids then
    .error (.productFilterError
      "At least one of product_type, brands, or offer_ids must be set.")
  else
    .ok ⟨product_type, brands, offer_ids⟩

/-! Schema generation
(terraform/modules/bigquery/helpers/generate_table_schema.py). -/

/-- Embedded Python type annotations that a LabeledImage TypedDict field can
carry, as discriminated by generate_bigquery_schema_string: str, int, float,
bool, an Enum subclass, list of an element type, or any other type. -/
inductive PyType
  | pystr
  | pyint
  | pyfloat
  | pybool
  | pyenum (enum_name : String)
  | pylist (elt : PyType)
  | pyother (type_name : String)
  deriving DecidableEq, Repr

/-- One field of a BigQuery table schema, as emitted by the helper. -/
structure SchemaField where
  name : String
  type : String
  mode : String
  deriving DecidableEq, Repr

/-- Fixed base columns (generate_table_schema.py, default_schema_fields). -/
def default_schema_fields : List SchemaField :=
  [⟨"image_link", "STRING", "NULLABLE"⟩,
   ⟨"mime_type", "STRING", "NULLABLE"⟩,
   ⟨"width", "INTEGER", "NULLABLE"⟩,
   ⟨"height", "INTEGER", "NULLABLE"⟩,
   ⟨"sha256_hash", "STRING", "NULLABLE"⟩,
   ⟨"timestamp", "TIMESTAMP", "NULLABLE"⟩]

/-- Loop body of generate_bigquery_schema_string for a single field: the list
of schema entries appended for it, or an error for the final `else` branch.
The inner match for list element types mirrors the source exactly, including
its fall-through: a list whose element type is not str/enum/int/float matches
no inner branch and appends nothing, without reaching the raise. -/
def fieldSchema (field_name : String) : PyType → Except String (List SchemaField)
  | .pystr => .ok [⟨field_name, "STRING", "NULLABLE"⟩]
  | .pyenum _ => .ok [⟨field_name, "STRING", "NULLABLE"⟩]
  | .pyint => .ok [⟨field_name, "INTEGER", "NULLABLE"⟩]
  | .pyfloat => .ok [⟨field_name, "FLOAT", "NULLABLE"⟩]
  | .pybool => .ok [⟨field_name, "BOOLEAN", "NULLABLE"⟩]
  | .pylist elt =>
      match elt with
      | .pystr => .ok [⟨field_name, "STRING", "REPEATED"⟩]
      | .pyenum _ => .ok [⟨field_name, "STRING", "REPEATED"⟩]
      | .pyint => .ok [⟨field_name, "INTEGER", "REPEATED"⟩]
      | .pyfloat => .ok [⟨field_name, "FLOAT", "REPEATED"⟩]
      | _ => .ok []
  | .pyother type_name =>
      .error ("Unsupported type for field " ++ field_name ++ ": " ++ type_name)

/-- Schema entries contributed by the typed fields, in order, stopping at the
first field whose type raises. -/
def schemaFieldsFor : List (String × PyType) → Except String (List SchemaField)
  | [] => .ok []
  | (field_name, field_type) :: rest => do
      let s ← fieldSchema field_name field_type
      let r ← schemaFieldsFor rest
      .ok (s ++ r)

/-- Embedding of generate_bigquery_schema_string: the default fields followed
by one entry per supported typed field of the label class. -/
def generate_bigquery_schema (fields : List (String × PyType)) :
    Except String (List SchemaField) :=
  (schemaFieldsFor fields).map (fun s => default_schema_fields ++ s)

/-! Product pusher (src/push_products/push_products_lib.py). -/

/-- Oracle outcomes for the Cloud Tasks boundary of ProductPusher:
whether queue_path resolves, and whether create_task succeeds for the attempt
at each position of the product list. -/
structure PushEnv where
  queue_path_ok : Bool
  create_task_ok : Nat → Bool

/-- Observable event of push_products: one create_task attempt per product,
tagged with its position and offer id. -/
inductive PushEv
  | taskAttempt (idx : Nat) (offer_id : String)
  deriving DecidableEq, Repr

/-- Errors of the push_products module that matter here
(CloudTasksPublishError). -/
inductive PushError
  | cloudTasksPublishError (msg : String)
  deriving DecidableEq, Repr

/-- Per-product loop of push_products: each product is attempted; an attempt
failure increments failure_count and continues, a success increments
success_count. -/
def pushLoop (env : PushEnv) (idx : Nat) : List Product → (Nat × Nat) × List PushEv
  | [] => ((0, 0), [])
  | p :: rest =>
      let r := pushLoop env (idx + 1) rest
      if env.create_task_ok idx then
        ((r.1.1 + 1, r.1.2), .taskAttempt idx p.offer_id :: r.2)
      else
        ((r.1.1, r.1.2 + 1), .taskAttempt idx p.offer_id :: r.2)

/-- Embedding of ProductPusher.push_products: resolving the queue path happens
first and raises CloudTasksPublishError before any product is attempted;
afterwards every product is attempted and the (success, failure) counts are
returned. -/
def push_products (env : PushEnv) (products : List Product) :
    Except PushError (Nat × Nat) × List PushEv :=
  if env.queue_path_ok then
    let r := pushLoop env 0 products
    (.ok r.1, r.2)
  else
    (.error (.cloudTasksPublishError "Failed to resolve queue path"), [])

/-- Expected attempt trace: one event per product, in order, starting at a
given position. -/
def attemptEvents (idx : Nat) : List Product → List PushEv
  | [] => []
  | p :: rest => .taskAttempt idx p.offer_id :: attemptEvents (idx + 1) rest

/-! Product classifier (src/classify_product/classify_product_lib.py). -/

/-- Opaque reference to a file uploaded to the inference provider's file store
(google.genai.types.File); the source only ever uses its name. -/
structure GenaiFile where
  name : String
  deriving DecidableEq, Repr

/-- JSON-ish value of one entry of a serialized dict: null, string, integer,
a nested file reference object, or a nested label dict. -/
inductive Value
  | vnull
  | vstr (s : String)
  | vint (n : Int)
  | vfile (f : GenaiFile)
  | vlabel (l : LabeledImage)
  deriving DecidableEq, Repr

/-- Value of an optional string under JSON serialization. -/
def optStrValue : Option String → Value
  | none => .vnull
  | some s => .vstr s

/-- Processed image data class (classify_product_lib.py, ProcessedImage).
mime_type comes from response.headers.get and can be absent. -/
structure ProcessedImage where
  image_link : String
  genai_file_reference : GenaiFile
  mime_type : Option String
  width : Int
  height : Int
  sha256_hash : String
  labeled_image : Option LabeledImage := none
  deriving DecidableEq, Repr

/-- dataclasses.asdict of a ProcessedImage, in field declaration order. -/
def ProcessedImage.asdict (p : ProcessedImage) : List (String × Value) :=
  [("image_link", .vstr p.image_link),
   ("genai_file_reference", .vfile p.genai_file_reference),
   ("mime_type", optStrValue p.mime_type),
   ("width", .vint p.width),
   ("height", .vint p.height),
   ("sha256_hash", .vstr p.sha256_hash),
   ("labeled_image", match p.labeled_image with
                     | none => .vnull
                     | some l => .vlabel l)]

/-- JSON serialization of a ProcessedImage (ProcessedImage.to_json): the
asdict entries with the genai_file_reference key popped. -/
def ProcessedImage.to_json (p : ProcessedImage) : List (String × Value) :=
  p.asdict.filter (fun kv => !(kv.1 == "genai_file_reference"))

/-- One warehouse row, as a dict in insertion order. -/
abbrev Row := List (String × Value)

/-- Errors raised out of ProductClassifier methods.  pilError stands for a
PIL decode exception escaping process_image unwrapped, typeError for the
dict.update of a None labeled_image in write_result_to_bigquery. -/
inductive ClassifyError
  | imagePullError (msg : String)
  | generativeAIError (msg : String)
  | bigQueryWriteError (msg : String)
  | pilError (msg : String)
  | typeError (msg : String)
  deriving DecidableEq, Repr

/-- Observable events of one classifier invocation, in program order: the
HTTP GET of an image, the file-store upload call (with the bytes and the
observed MIME type) and its returned reference name, the local hash and
decode steps, the generate_content call (with the file reference names and
the text prompt), each file-store delete, and the BigQuery insert. -/
inductive Ev
  | httpGet (url : String)
  | uploadCall (content : String) (mime : Option String)
  | uploadOk (file_name : String)
  | hashed (content : String)
  | decoded (content : String)
  | generateCall (files : List String) (text_prompt : String)
  | deleteFile (file_name : String)
  | insertCall (table : String) (nrows : Nat)
  deriving DecidableEq, Repr

/-- Oracle environment for one ProductClassifier instance: its constructor
arguments (prompt, model_name, table_id) plus the outcome of every external
call.  Image bytes are modelled as strings; sha256 is an oracle for the pure
hash function; image_size is the PIL decode returning (width, height). -/
structure ClassifyEnv where
  prompt : String
  model_name : String
  table_id : String
  http_get : String → Except String (String × Option String)
  files_upload : String → Option String → Except String GenaiFile
  sha256_hex : String → String
  image_size : String → Except String (Int × Int)
  generate_content : String → List GenaiFile → String → Except String (List LabeledImage × String)
  insert_rows_json : String → List Row → Except String (List String)
  now_timestamp : String

/-- Embedding of ProductClassifier.process_image: HTTP GET (any failure
wrapped as ImagePullError), then the file-store upload (any failure wrapped
as GenerativeAIError), then the sha256 hash, then the PIL decode for the
pixel dimensions (a decode failure escapes unwrapped). -/
def process_image (env : ClassifyEnv) (image_link : String) :
    Except ClassifyError ProcessedImage × List Ev :=
  match env.http_get image_link with
  | .error e => (.error (.imagePullError e), [.httpGet image_link])
  | .ok (response_content, mime_type) =>
      match env.files_upload response_content mime_type with
      | .error e =>
          (.error (.generativeAIError e),
           [.httpGet image_link, .uploadCall response_content mime_type])
      | .ok genai_file_reference =>
          let sha256_hash := env.sha256_hex response_content
          match env.image_size response_content with
          | .error e =>
              (.error (.pilError e),
               [.httpGet image_link, .uploadCall response_content mime_type,
                .uploadOk genai_file_reference.name, .hashed response_content])
          | .ok (width, height) =>
              (.ok { image_link := image_link,
                     genai_file_reference := genai_file_reference,
                     mime_type := mime_type,
                     width := width,
                     height := height,
                     sha256_hash := sha256_hash },
               [.httpGet image_link, .uploadCall response_content mime_type,
                .uploadOk genai_file_reference.name, .hashed response_content,
                .decoded response_content])

/-- Text prompt built by run_multimodal_query: one positional marker per
image, the configured prompt, then optional title and product-type context
lines, joined with newlines. -/
def buildTextPrompt (classifier_prompt : String) (product : Product) (n : Nat) : String :=
  let image_ids := (List.range n).map (fun i => "image " ++ toString (i + 1))
  let withTitle :=
    match product.title with
    | none => image_ids ++ [classifier_prompt]
    | some t => image_ids ++ [classifier_prompt,
        "The product showcased by the images is: " ++ t]
  let allLines :=
    match product.product_type with
    | none => withTitle
    | some pt => withTitle ++
        ["The category of the product shown in the images is: " ++ pt]
  String.intercalate "\n" allLines

/-- Positional write-back of the parsed labels onto the processed images
(the enumerate loop of run_multimodal_query). -/
def assignLabels (processed_images : List ProcessedImage)
    (labeled_images : List LabeledImage) : List ProcessedImage :=
  List.zipWith (fun pi l => { pi with labeled_image := some l })
    processed_images labeled_images

/-- Message of the ValueError raised on a response-length mismatch. -/
def lengthMismatchMsg : String :=
  "Gemini response length does not match number of images to be classified."

/-- Embedding of ProductClassifier.run_multimodal_query: one generate_content
call over all uploaded file references plus the text prompt; a call failure
or a label-count mismatch raises GenerativeAIError; on success the labels are
assigned by position.  The finally block deletes every uploaded file
reference on all three paths, so the trace always ends with one deleteFile
event per submitted image. -/
def run_multimodal_query (env : ClassifyEnv) (product : Product)
    (processed_images : List ProcessedImage) :
    Except ClassifyError (String × List ProcessedImage) × List Ev :=
  let text_prompt := buildTextPrompt env.prompt product processed_images.length
  let files := processed_images.map (fun pi => pi.genai_file_reference)
  let cleanup := processed_images.map
    (fun pi => Ev.deleteFile pi.genai_file_reference.name)
  match env.generate_content env.model_name files text_prompt with
  | .error e =>
      (.error (.generativeAIError e),
       .generateCall (files.map GenaiFile.name) text_prompt :: cleanup)
  | .ok (labeled_images, response_text) =>
      if labeled_images.length ≠ processed_images.length then
        (.error (.generativeAIError lengthMismatchMsg),
         .generateCall (files.map GenaiFile.name) text_prompt :: cleanup)
      else
        (.ok (response_text, assignLabels processed_images labeled_images),
         .generateCall (files.map GenaiFile.name) text_prompt :: cleanup)

/-- Row fields contributed by dict.update(labeled_image): the label's own
typed fields, here the single image-type field as its enum string value. -/
def labelRowFields (l : LabeledImage) : List (String × Value) :=
  [("type", Value.vstr l.type.value)]

/-- Row built for one processed image by write_result_to_bigquery: asdict
minus the genai_file_reference and labeled_image keys, updated with the label
fields and the shared insertion timestamp.  A missing label makes
row.update(None) raise, modelled as none. -/
def buildRow (insertion_timestamp : String) (pi : ProcessedImage) : Option Row :=
  match pi.labeled_image with
  | none => none
  | some l =>
      some ((pi.asdict.filter (fun kv =>
              !(kv.1 == "genai_file_reference") && !(kv.1 == "labeled_image")))
            ++ labelRowFields l ++ [("timestamp", Value.vstr insertion_timestamp)])

/-- Row-building loop of write_result_to_bigquery: one row per image, failing
at the first image whose labeled_image is missing. -/
def buildRows (insertion_timestamp : String) : List ProcessedImage → Option (List Row)
  | [] => some []
  | pi :: rest =>
      match buildRow insertion_timestamp pi with
      | none => none
      | some row =>
          match buildRows insertion_timestamp rest with
          | none => none
          | some rows => some (row :: rows)

/-- Embedding of ProductClassifier.write_result_to_bigquery: builds one row
per image with a single shared timestamp, then one bulk insert; a transport
exception or a non-empty returned error list raises BigQueryWriteError. -/
def write_result_to_bigquery (env : ClassifyEnv)
    (processed_images : List ProcessedImage) :
    Except ClassifyError Unit × List Ev :=
  match buildRows env.now_timestamp processed_images with
  | none => (.error (.typeError "row.update of a missing labeled_image"), [])
  | some rows =>
      match env.insert_rows_json env.table_id rows with
      | .error e =>
          (.error (.bigQueryWriteError e), [.insertCall env.table_id rows.length])
      | .ok errors =>
          if errors.isEmpty then
            (.ok (), [.insertCall env.table_id rows.length])
          else
            (.error (.bigQueryWriteError (String.intercalate "; " errors)),
             [.insertCall env.table_id rows.length])

/-- Image links processed for a product: the optional primary link followed
by the additional links, with None filtered out (process_product's list
comprehension). -/
def imageLinks (product : Product) : List String :=
  (product.image_link :: product.additional_image_links.map some).filterMap id

/-- Sequential fetch-and-upload of every link (the list comprehension of
process_product): the first failure aborts the whole product, discarding the
already-built ProcessedImage values. -/
def processImagesLoop (env : ClassifyEnv) :
    List String → Except ClassifyError (List ProcessedImage) × List Ev
  | [] => (.ok [], [])
  | link :: rest =>
      match process_image env link with
      | (.error e, tr) => (.error e, tr)
      | (.ok pi, tr) =>
          match processImagesLoop env rest with
          | (.error e, tr2) => (.error e, tr ++ tr2)
          | (.ok pis, tr2) => (.ok (pi :: pis), tr ++ tr2)

/-- Embedding of ProductClassifier.process_product: fetch and upload each
non-null image link in order, run the batched classification, persist the
results; any exception is logged and re-raised unchanged. -/
def process_product (env : ClassifyEnv) (product : Product) :
    Except ClassifyError Unit × List Ev :=
  match processImagesLoop env (imageLinks product) with
  | (.error e, tr) => (.error e, tr)
  | (.ok processed_images, tr1) =>
      match run_multimodal_query env product processed_images with
      | (.error e, tr2) => (.error e, tr1 ++ tr2)
      | (.ok (_gemini_response, updated_images), tr2) =>
          match write_result_to_bigquery env updated_images with
          | (.error e, tr3) => (.error e, tr1 ++ tr2 ++ tr3)
          | (.ok _, tr3) => (.ok (), tr1 ++ tr2 ++ tr3)

/-! Trace observations used to state the claims. -/

/-- Check whether an event is the file-store upload call. -/
def isUploadEv : Ev → Bool
  | .uploadCall _ _ => true
  | _ => false

/-- Check whether an event is the local content-hash step. -/
def isHashEv : Ev → Bool
  | .hashed _ => true
  | _ => false

/-- Check whether an event is the local image-decode step. -/
def isDecodeEv : Ev → Bool
  | .decoded _ => true
  | _ => false

/-- True when some event matching p occurs and the first such event occurs
strictly before the first event matching q. -/
def firstBefore (p q : Ev → Bool) (tr : List Ev) : Bool :=
  match tr.findIdx? p, tr.findIdx? q with
  | some i, some j => decide (i < j)
  | _, _ => false

/-- Number of file-store releases of a given reference name in a trace. -/
def countDeletes (file_name : String) (tr : List Ev) : Nat :=
  tr.countP (fun ev => match ev with
    | .deleteFile n => n == file_name
    | _ => false)

/-- Number of successful file-store uploads of a given reference name in a
trace. -/
def countUploadsOk (file_name : String) (tr : List Ev) : Nat :=
  tr.countP (fun ev => match ev with
    | .uploadOk n => n == file_name
    | _ => false)

/-- Image with its label cleared; two ProcessedImage values agree on every
other field exactly when their clearLabel images are equal. -/
def clearLabel (pi : ProcessedImage) : ProcessedImage :=
  { pi with labeled_image := none }

/-- Boolean success test for an Except value. -/
def isOkExcept {ε α : Type} : Except ε α → Bool
  | .ok _ => true
  | .error _ => false

/-! Concrete products, images and environments used by the witnesses and
counterexamples. -/

/-- Sample label: a silo image. -/
def lblSilo : LabeledImage := ⟨.silo⟩

/-- Sample label: a lifestyle image. -/
def lblLife : LabeledImage := ⟨.lifestyle⟩

/-- Sample processed image number 1. -/
def piW1 : ProcessedImage :=
  ⟨"http://image1.com", ⟨"files/f1"⟩, some "image/jpeg", 100, 100, "hash1", none⟩

/-- Sample processed image number 2. -/
def piW2 : ProcessedImage :=
  ⟨"http://image2.com", ⟨"files/f2"⟩, some "image/jpeg", 100, 100, "hash2", none⟩

/-- Sample processed image number 1 with its label already assigned. -/
def piLabeled : ProcessedImage := { piW1 with labeled_image := some lblSilo }

/-- Sample product with a primary and one additional image link. -/
def productW : Product :=
  ⟨"offer1", 1, 101, some "Offer 1", some "Product A", some "BrandX",
   some "http://image1.com", ["http://image2.com"]⟩

/-- Sample product whose primary image link is null and which has exactly one
additional image link. -/
def productC7 : Product :=
  ⟨"offer2", 2, 102, some "Offer 2", some "Product B", none,
   none, ["http://a/img.png"]⟩

/-- Sample product with a primary link and one additional link, used for the
leak counterexample. -/
def productLeak : Product :=
  ⟨"offer3", 3, 103, some "Offer 3", some "Product C", some "BrandY",
   some "http://a/1.png", ["http://a/2.png"]⟩

/-- Sample product with a single primary image link. -/
def productHappy : Product :=
  ⟨"offer4", 4, 104, some "Offer 4", some "Product D", some "BrandZ",
   some "http://a/1.png", []⟩

/-- Base classifier environment in which every external call fails; the
individual scenarios override the calls they exercise. -/
def envBase : ClassifyEnv where
  prompt := "Test prompt"
  model_name := "gemini-test"
  table_id := "proj.ds.table"
  http_get := fun _ => .error "unused"
  files_upload := fun _ _ => .error "unused"
  sha256_hex := fun _ => "h1"
  image_size := fun _ => .error "unused"
  generate_content := fun _ _ _ => .error "unused"
  insert_rows_json := fun _ _ => .error "unused"
  now_timestamp := "2026-01-01 00:00:00"

/-- Environment in which every external call succeeds: every fetch returns
the bytes c1 with MIME image/png, the upload yields reference files/f1, the
decode yields 5 x 7, the model returns one silo label, and the insert
reports no errors. -/
def envImgHappy : ClassifyEnv :=
  { envBase with
    http_get := fun _ => .ok ("c1", some "image/png")
    files_upload := fun _ _ => .ok ⟨"files/f1"⟩
    image_size := fun _ => .ok (5, 7)
    generate_content := fun _ _ _ => .ok ([lblSilo], "resp")
    insert_rows_json := fun _ _ => .ok [] }

/-- Environment in which the first image link fetches and uploads fine but
every other fetch fails with an HTTP 404. -/
def envLeak : ClassifyEnv :=
  { envBase with
    http_get := fun url =>
      if url == "http://a/1.png" then .ok ("c1", some "image/png")
      else .error "HTTP 404"
    files_upload := fun _ _ => .ok ⟨"files/f1"⟩
    image_size := fun _ => .ok (5, 7) }

/-- Environment whose model call returns two labels. -/
def envTwoLabels : ClassifyEnv :=
  { envBase with generate_content := fun _ _ _ => .ok ([lblSilo, lblLife], "resp") }

/-- Environment whose model call returns a single label. -/
def envOneLabel : ClassifyEnv :=
  { envBase with generate_content := fun _ _ _ => .ok ([lblSilo], "resp") }

/-- Environment whose insert call returns one row-level error without
throwing. -/
def envRowErrors : ClassifyEnv :=
  { envBase with insert_rows_json := fun _ _ => .ok ["row error"] }

/-- Push environment in which the queue path resolves and exactly the
attempt at position 1 fails. -/
def envPushW : PushEnv :=
  ⟨true, fun i => decide (i ≠ 1)⟩

/-- Sample products for the pusher scenarios. -/
def productA : Product :=
  ⟨"offerA", 11, 201, some "A", some "cat", some "brand", some "http://a/1.png", []⟩

/-- Second sample product for the pusher scenarios. -/
def productB : Product :=
  ⟨"offerB", 12, 202, none, none, none, none, ["http://b/1.png"]⟩

/-- Third sample product for the pusher scenarios. -/
def productC : Product :=
  ⟨"offerC", 13, 203, some "C", none, some "b2", some "http://c/1.png", ["http://c/2.png"]⟩

/-! Theorems. -/

/-- C8: constructing a ProductFilter with no criterion set (product_type,
brands and offer_ids all absent, the dataclass defaults) raises
ProductFilterError at construction time, before any query can run. -/
theorem productFilter_empty_raises :
    ProductFilter.make none none none =
      .error (.productFilterError
        "At least one of product_type, brands, or offer_ids must be set.") := rfl

/-- C3: evaluation of the schema generator at the failing input — a field
annotated list of bool is not among the supported scalar or list-of-scalar
types, yet generate_bigquery_schema silently drops it: the result is the
default fields only, with no error raised and no entry named flags. -/
theorem schema_silently_drops_list_bool :
    generate_bigquery_schema [("flags", .pylist .pybool)] = .ok default_schema_fields ∧
    default_schema_fields.all (fun sf => !(sf.name == "flags")) = true :=
  ⟨rfl, rfl⟩

/-- Success and failure counts of the push loop always sum to the number of
products. -/
theorem pushLoop_sum (env : PushEnv) : ∀ (ps : List Product) (idx : Nat),
    (pushLoop env idx ps).1.1 + (pushLoop env idx ps).1.2 = ps.length
  | [], _ => rfl
  | p :: rest, idx => by
      have ih := pushLoop_sum env rest (idx + 1)
      simp only [pushLoop, List.length_cons]
      cases h : env.create_task_ok idx <;> simp [h] <;> omega

/-- The push loop attempts every product, in order, whatever the per-item
outcomes are. -/
theorem pushLoop_trace (env : PushEnv) : ∀ (ps : List Product) (idx : Nat),
    (pushLoop env idx ps).2 = attemptEvents idx ps
  | [], _ => rfl
  | p :: rest, idx => by
      have ih := pushLoop_trace env rest (idx + 1)
      simp only [pushLoop, attemptEvents]
      cases h : env.create_task_ok idx <;> simp [h, ih]

/-- When every attempt from a position on succeeds, the loop counts only
successes. -/
theorem pushLoop_ok_from (env : PushEnv) : ∀ (ps : List Product) (idx : Nat),
    (∀ j, idx ≤ j → env.create_task_ok j = true) →
    (pushLoop env idx ps).1 = (ps.length, 0)
  | [], _, _ => rfl
  | p :: rest, idx, h => by
      have ih := pushLoop_ok_from env rest (idx + 1) (fun j hj => h j (by omega))
      have hidx := h idx (Nat.le_refl idx)
      simp [pushLoop, hidx, ih]

/-- When exactly the attempt at position k fails and k lies in the processed
range, the loop returns one failure and len - 1 successes. -/
theorem pushLoop_single_failure (env : PushEnv) (k : Nat)
    (hok : ∀ j, j ≠ k → env.create_task_ok j = true)
    (hfail : env.create_task_ok k = false) :
    ∀ (ps : List Product) (idx : Nat), idx ≤ k → k < idx + ps.length →
    (pushLoop env idx ps).1 = (ps.length - 1, 1)
  | [], idx, hle, hlt => by
      have : k < idx := by simpa using hlt
      exact absurd this (Nat.not_lt.mpr hle)
  | p :: rest, idx, hle, hlt => by
      by_cases hik : idx = k
      · subst hik
        have hrest := pushLoop_ok_from env rest (idx + 1) (fun j hj => hok j (by omega))
        simp [pushLoop, hfail, hrest]
      · have hlt0 : k < idx + 1 + rest.length := by
          simp only [List.length_cons] at hlt; omega
        have ih := pushLoop_single_failure env k hok hfail rest (idx + 1)
          (by omega) hlt0
        have hpos : 0 < rest.length := by omega
        have hidx : env.create_task_ok idx = true := hok idx hik
        simp [pushLoop, hidx, ih]
        omega

/-- C5: when the queue path resolves and exactly the product at position k
fails to publish, push_products returns (N - 1, 1) without raising, and its
trace still attempts every product in order, including those after k; and
whenever the queue path itself fails to resolve, push_products raises
CloudTasksPublishError with no product attempted. -/
theorem push_products_partial_failure (env : PushEnv) (products : List Product)
    (k : Nat) (hq : env.queue_path_ok = true) (hk : k < products.length)
    (hok : ∀ j, j ≠ k → env.create_task_ok j = true)
    (hfail : env.create_task_ok k = false) :
    push_products env products =
      (.ok (products.length - 1, 1), attemptEvents 0 products) ∧
    ∀ (env2 : PushEnv) (ps2 : List Product), env2.queue_path_ok = false →
      push_products env2 ps2 =
        (.error (.cloudTasksPublishError "Failed to resolve queue path"), []) := by
  constructor
  · have h1 := pushLoop_single_failure env k hok hfail products 0 (Nat.zero_le k)
      (by omega)
    have h2 := pushLoop_trace env products 0
    simp [push_products, hq, h1, h2]
  · intro env2 ps2 h2
    simp [push_products, h2]

/-- Witness for C5 at a concrete input: three products where the middle
publish fails yield counts (2, 1) and all three attempts. -/
theorem push_products_partial_failure_witness :
    push_products envPushW [productA, productB, productC] =
      (.ok (2, 1), attemptEvents 0 [productA, productB, productC]) :=
  (push_products_partial_failure envPushW [productA, productB, productC] 1 rfl
    (by decide) (fun j hj => decide_eq_true hj) rfl).1

/-- C10: whenever push_products returns a pair of counts, every product was
counted exactly once: the success and failure counts sum to the length of
the input list. -/
theorem push_products_counts_partition (env : PushEnv) (products : List Product)
    (s f : Nat) (tr : List PushEv)
    (h : push_products env products = (.ok (s, f), tr)) :
    s + f = products.length := by
  unfold push_products at h
  cases hq : env.queue_path_ok with
  | false => rw [hq] at h; simp at h
  | true =>
      rw [hq] at h
      simp only [if_true] at h
      have h1 : (pushLoop env 0 products).1 = (s, f) := by
        have := congrArg Prod.fst h
        simpa using this
      have hs := pushLoop_sum env products 0
      rw [h1] at hs
      simpa using hs

/-- Witness for C10 at a concrete input: the (2, 1) outcome partitions the
three products. -/
theorem push_products_counts_partition_witness :
    2 + 1 = [productA, productB, productC].length :=
  push_products_counts_partition envPushW [productA, productB, productC] 2 1
    (attemptEvents 0 [productA, productB, productC]) rfl

/-- Positional write-back: when the label count matches, the updated images
carry exactly the returned labels in order, and every other field of every
image is unchanged. -/
theorem assignLabels_spec : ∀ (imgs : List ProcessedImage) (labels : List LabeledImage),
    labels.length = imgs.length →
    (assignLabels imgs labels).map (fun pi => pi.labeled_image) = labels.map some ∧
    (assignLabels imgs labels).map clearLabel = imgs.map clearLabel
  | [], [], _ => ⟨rfl, rfl⟩
  | [], l :: _, h => by simp at h
  | pi :: _, [], h => by simp at h
  | pi :: rest, l :: ls, h => by
      have ih := assignLabels_spec rest ls (by simpa using h)
      simp only [assignLabels, List.zipWith_cons_cons, List.map_cons] at ih ⊢
      refine ⟨?_, ?_⟩
      · simp [ih.1]
      · simp [clearLabel, ih.2]

/-- C2: for every classification batch whose model call parses, a label list
of a different length than the submitted images makes run_multimodal_query
raise GenerativeAIError (from the ValueError), and an equal length makes it
succeed, assigning the k-th returned label to the k-th submitted image while
leaving every other image field unchanged. -/
theorem run_multimodal_query_length_contract (env : ClassifyEnv) (product : Product)
    (imgs : List ProcessedImage) (labels : List LabeledImage) (text : String)
    (hgen : env.generate_content env.model_name
        (imgs.map (fun pi => pi.genai_file_reference))
        (buildTextPrompt env.prompt product imgs.length) = .ok (labels, text)) :
    (labels.length ≠ imgs.length →
      (run_multimodal_query env product imgs).1 =
        .error (.generativeAIError lengthMismatchMsg)) ∧
    (labels.length = imgs.length →
      ∃ upd, (run_multimodal_query env product imgs).1 = .ok (text, upd) ∧
        upd.map (fun pi => pi.labeled_image) = labels.map some ∧
        upd.map clearLabel = imgs.map clearLabel) := by
  constructor
  · intro hne
    simp [run_multimodal_query, hgen, hne]
  · intro heq
    refine ⟨assignLabels imgs labels, ?_, (assignLabels_spec imgs labels heq).1,
      (assignLabels_spec imgs labels heq).2⟩
    simp [run_multimodal_query, hgen, heq]

/-- Witness for C2 at concrete inputs: one label for two images raises the
mismatch error, two labels for two images succeed and land by position. -/
theorem run_multimodal_query_length_contract_witness :
    (run_multimodal_query envOneLabel productW [piW1, piW2]).1 =
      .error (.generativeAIError lengthMismatchMsg) ∧
    ∃ upd, (run_multimodal_query envTwoLabels productW [piW1, piW2]).1 =
        .ok ("resp", upd) ∧
      upd.map (fun pi => pi.labeled_image) = [lblSilo, lblLife].map some ∧
      upd.map clearLabel = [piW1, piW2].map clearLabel :=
  ⟨(run_multimodal_query_length_contract envOneLabel productW [piW1, piW2]
      [lblSilo] "resp" rfl).1 (by decide),
   (run_multimodal_query_length_contract envTwoLabels productW [piW1, piW2]
      [lblSilo, lblLife] "resp" rfl).2 rfl⟩

/-- C6: when the rows build (every image is labeled), write_result_to_bigquery
fails exactly when the bulk insert throws or returns a non-empty list of row
errors — in particular a returned non-empty error list raises even though
the insert call itself did not throw — and any error it raises is a
BigQueryWriteError. -/
theorem write_result_persist_error_iff (env : ClassifyEnv)
    (imgs : List ProcessedImage) (rows : List Row)
    (hrows : buildRows env.now_timestamp imgs = some rows) :
    (isOkExcept (write_result_to_bigquery env imgs).1 = false ↔
      isOkExcept (env.insert_rows_json env.table_id rows) = false ∨
      ∃ errs, env.insert_rows_json env.table_id rows = .ok errs ∧ errs ≠ []) ∧
    ∀ e, (write_result_to_bigquery env imgs).1 = .error e →
      ∃ msg, e = .bigQueryWriteError msg := by
  rcases hins : env.insert_rows_json env.table_id rows with e | errs
  · constructor
    · simp [write_result_to_bigquery, hrows, hins, isOkExcept]
    · intro e2 he
      simp [write_result_to_bigquery, hrows, hins] at he
      exact ⟨e, he.symm⟩
  · rcases herrs : errs with _ | ⟨e0, rest⟩
    · constructor
      · subst herrs
        simp [write_result_to_bigquery, hrows, hins, isOkExcept]
      · intro e2 he
        subst herrs
        simp [write_result_to_bigquery, hrows, hins] at he
    · constructor
      · subst herrs
        simp [write_result_to_bigquery, hrows, hins, isOkExcept]
      · intro e2 he
        subst herrs
        simp [write_result_to_bigquery, hrows, hins] at he
        exact ⟨_, he.symm⟩

/-- Witness for C6 at a concrete input: an insert call that returns one
row-level error without throwing makes the write fail. -/
theorem write_result_persist_error_iff_witness :
    isOkExcept (write_result_to_bigquery envRowErrors [piLabeled]).1 = false :=
  (write_result_persist_error_iff envRowErrors [piLabeled] _ rfl).1.mpr
    (Or.inr ⟨["row error"], rfl, by decide⟩)

/-- C9: for every labeled processed image, the warehouse row built for it
carries no genai_file_reference entry while keeping the classification label
field, and its JSON serialization likewise omits the file reference while
keeping the label. -/
theorem file_reference_never_serialized (pi : ProcessedImage) (l : LabeledImage)
    (ts : String) (hl : pi.labeled_image = some l) :
    (∃ row, buildRow ts pi = some row ∧
      row.all (fun kv => !(kv.1 == "genai_file_reference")) = true ∧
      ("type", Value.vstr l.type.value) ∈ row) ∧
    pi.to_json.all (fun kv => !(kv.1 == "genai_file_reference")) = true ∧
    ("labeled_image", Value.vlabel l) ∈ pi.to_json := by
  obtain ⟨il, ref, mt, w, h, sh, lbl⟩ := pi
  simp only at hl
  subst hl
  refine ⟨⟨_, rfl, rfl, ?_⟩, rfl, ?_⟩
  · simp [buildRow, ProcessedImage.asdict, labelRowFields]
  · simp [ProcessedImage.to_json, ProcessedImage.asdict]

/-- Witness for C9 at a concrete input: the row built for the sample labeled
image has no file-reference entry and keeps the label field. -/
theorem file_reference_never_serialized_witness :
    ∃ row, buildRow "2026-01-01 00:00:00" piLabeled = some row ∧
      row.all (fun kv => !(kv.1 == "genai_file_reference")) = true ∧
      ("type", Value.vstr lblSilo.type.value) ∈ row :=
  (file_reference_never_serialized piLabeled lblSilo "2026-01-01 00:00:00" rfl).1

/-- C4 counterexample: on a concrete run where every external call succeeds,
process_image succeeds, but its step order is upload first, then hash, then
decode — the first hash event does not precede the first upload event, so
the claimed hash-decode-upload order is false on this input. -/
theorem process_image_order_counterexample :
    process_image envImgHappy "http://a/img.png" =
      (.ok ⟨"http://a/img.png", ⟨"files/f1"⟩, some "image/png", 5, 7, "h1", none⟩,
       [.httpGet "http://a/img.png", .uploadCall "c1" (some "image/png"),
        .uploadOk "files/f1", .hashed "c1", .decoded "c1"]) ∧
    firstBefore isHashEv isUploadEv (process_image envImgHappy "http://a/img.png").2
      = false ∧
    firstBefore isUploadEv isHashEv (process_image envImgHappy "http://a/img.png").2
      = true :=
  ⟨rfl, rfl, rfl⟩

/-- C4 amended: after a successful HTTP GET, process_image first uploads the
raw bytes tagged with the observed MIME type — raising GenerativeAIError if
and only if that upload fails — and only then computes the content hash and
decodes the image for its pixel dimensions (a decode failure escapes as a
distinct unwrapped error). -/
theorem process_image_step_order (env : ClassifyEnv) (image_link content : String)
    (mime : Option String) (hget : env.http_get image_link = .ok (content, mime)) :
    (∀ e, env.files_upload content mime = .error e →
      process_image env image_link =
        (.error (.generativeAIError e),
         [.httpGet image_link, .uploadCall content mime])) ∧
    (∀ f, env.files_upload content mime = .ok f →
      (∀ e, env.image_size content = .error e →
        process_image env image_link =
          (.error (.pilError e),
           [.httpGet image_link, .uploadCall content mime, .uploadOk f.name,
            .hashed content])) ∧
      (∀ w h, env.image_size content = .ok (w, h) →
        process_image env image_link =
          (.ok ⟨image_link, f, mime, w, h, env.sha256_hex content, none⟩,
           [.httpGet image_link, .uploadCall content mime, .uploadOk f.name,
            .hashed content, .decoded content]))) := by
  refine ⟨fun e he => ?_, fun f hf => ⟨fun e he => ?_, fun w h hwh => ?_⟩⟩
  · simp [process_image, hget, he]
  · simp [process_image, hget, hf, he]
  · simp [process_image, hget, hf, hwh]

/-- Witness for the amended C4 at a concrete input: the all-success run
produces the upload-hash-decode trace. -/
theorem process_image_step_order_witness :
    process_image envImgHappy "http://b/img.png" =
      (.ok ⟨"http://b/img.png", ⟨"files/f1"⟩, some "image/png", 5, 7, "h1", none⟩,
       [.httpGet "http://b/img.png", .uploadCall "c1" (some "image/png"),
        .uploadOk "files/f1", .hashed "c1", .decoded "c1"]) :=
  ((process_image_step_order envImgHappy "http://b/img.png" "c1" (some "image/png")
      rfl).2 ⟨"files/f1"⟩ rfl).2 5 7 rfl

/-- Deletion counts add over concatenated traces. -/
theorem countDeletes_append (file_name : String) (t1 t2 : List Ev) :
    countDeletes file_name (t1 ++ t2) =
      countDeletes file_name t1 + countDeletes file_name t2 := by
  simp [countDeletes, List.countP_append]

/-- The fetch-and-upload step never releases any file reference. -/
theorem countDeletes_process_image (env : ClassifyEnv) (file_name image_link : String) :
    countDeletes file_name (process_image env image_link).2 = 0 := by
  rcases h1 : env.http_get image_link with e | ⟨c, m⟩
  · simp [process_image, h1, countDeletes]
  · rcases h2 : env.files_upload c m with e | f
    · simp [process_image, h1, h2, countDeletes]
    · rcases h3 : env.image_size c with e | ⟨w, h⟩
      · simp [process_image, h1, h2, h3, countDeletes]
      · simp [process_image, h1, h2, h3, countDeletes]

/-- The sequential fetch-and-upload loop never releases any file reference,
whether it completes or aborts. -/
theorem countDeletes_processImagesLoop (env : ClassifyEnv) (file_name : String) :
    ∀ links : List String,
      countDeletes file_name (processImagesLoop env links).2 = 0
  | [] => rfl
  | link :: rest => by
      have h1 := countDeletes_process_image env file_name link
      have ih := countDeletes_processImagesLoop env file_name rest
      rcases hp : process_image env link with ⟨r, tr⟩
      rw [hp] at h1
      rcases hq : processImagesLoop env rest with ⟨r2, tr2⟩
      rw [hq] at ih
      cases r with
      | error e => simp [processImagesLoop, hp, h1]
      | ok pi =>
          cases r2 with
          | error e => simp [processImagesLoop, hp, hq, countDeletes_append, h1, ih]
          | ok pis => simp [processImagesLoop, hp, hq, countDeletes_append, h1, ih]

/-- Whatever the model call's outcome, run_multimodal_query's trace is the
generate call followed by one deleteFile event per submitted image: the
finally block runs on the success, call-failure and mismatch paths alike. -/
theorem run_multimodal_query_trace (env : ClassifyEnv) (product : Product)
    (imgs : List ProcessedImage) :
    ∃ r, run_multimodal_query env product imgs =
      (r, .generateCall ((imgs.map (fun pi => pi.genai_file_reference)).map
            GenaiFile.name)
            (buildTextPrompt env.prompt product imgs.length) ::
          imgs.map (fun pi => Ev.deleteFile pi.genai_file_reference.name)) := by
  rcases hg : env.generate_content env.model_name
      (imgs.map (fun pi => pi.genai_file_reference))
      (buildTextPrompt env.prompt product imgs.length) with e | ⟨labels, text⟩
  · exact ⟨.error (.generativeAIError e), by simp [run_multimodal_query, hg]⟩
  · by_cases hlen : labels.length = imgs.length
    · exact ⟨.ok (text, assignLabels imgs labels),
        by simp [run_multimodal_query, hg, hlen]⟩
    · exact ⟨.error (.generativeAIError lengthMismatchMsg),
        by simp [run_multimodal_query, hg, hlen]⟩

/-- The deleteFile events for a list of images release each reference name
exactly as often as it occurs among the images' reference names. -/
theorem countDeletes_map_delete (file_name : String) :
    ∀ imgs : List ProcessedImage,
      countDeletes file_name
        (imgs.map (fun pi => Ev.deleteFile pi.genai_file_reference.name)) =
      (imgs.map (fun pi => pi.genai_file_reference.name)).count file_name
  | [] => rfl
  | pi :: rest => by
      have ih := countDeletes_map_delete file_name rest
      simp only [List.map_cons, countDeletes, List.countP_cons, List.count_cons] at ih ⊢
      rw [ih]

/-- The persist step never releases any file reference. -/
theorem countDeletes_write_result (env : ClassifyEnv) (file_name : String)
    (imgs : List ProcessedImage) :
    countDeletes file_name (write_result_to_bigquery env imgs).2 = 0 := by
  rcases h1 : buildRows env.now_timestamp imgs with _ | rows
  · simp [write_result_to_bigquery, h1, countDeletes]
  · rcases h2 : env.insert_rows_json env.table_id rows with e | errs
    · simp [write_result_to_bigquery, h1, h2, countDeletes]
    · by_cases h3 : errs.isEmpty <;>
        simp [write_result_to_bigquery, h1, h2, h3, countDeletes]

/-- C1 counterexample: a product with two image links where the first image
uploads successfully and the second fetch fails.  The invocation fails with
ImagePullError, and the uploaded reference files/f1 — a failure path
downstream of that image's upload — is released zero times, not once. -/
theorem cleanup_leak_counterexample :
    (process_product envLeak productLeak).1 = .error (.imagePullError "HTTP 404") ∧
    countUploadsOk "files/f1" (process_product envLeak productLeak).2 = 1 ∧
    countDeletes "files/f1" (process_product envLeak productLeak).2 = 0 :=
  ⟨rfl, rfl, rfl⟩

/-- C1 amended: in every invocation in which all of the product's images are
fetched, uploaded and decoded successfully, each uploaded file reference is
released exactly once (as often as it was uploaded) — on the success path, on
a classification failure and on a label-count mismatch alike.  When a later
image's fetch or upload fails instead, the references uploaded earlier in
that invocation are not released, as the counterexample shows. -/
theorem cleanup_exactly_once_after_upload_stage (env : ClassifyEnv)
    (product : Product) (imgs : List ProcessedImage) (tr1 : List Ev)
    (hloop : processImagesLoop env (imageLinks product) = (.ok imgs, tr1))
    (file_name : String) :
    countDeletes file_name (process_product env product).2 =
      (imgs.map (fun pi => pi.genai_file_reference.name)).count file_name := by
  have htr1 : countDeletes file_name tr1 = 0 := by
    have h := countDeletes_processImagesLoop env file_name (imageLinks product)
    rw [hloop] at h
    exact h
  obtain ⟨r2, hr2⟩ := run_multimodal_query_trace env product imgs
  have hcons : countDeletes file_name
      (Ev.generateCall ((imgs.map (fun pi => pi.genai_file_reference)).map
          GenaiFile.name)
          (buildTextPrompt env.prompt product imgs.length) ::
        imgs.map (fun pi => Ev.deleteFile pi.genai_file_reference.name)) =
      (imgs.map (fun pi => pi.genai_file_reference.name)).count file_name := by
    simp only [countDeletes, List.countP_cons]
    have := countDeletes_map_delete file_name imgs
    simp only [countDeletes] at this
    simp [this]
  cases r2 with
  | error e =>
      have hgoal : (process_product env product).2 =
          tr1 ++ (Ev.generateCall ((imgs.map (fun pi => pi.genai_file_reference)).map
              GenaiFile.name)
              (buildTextPrompt env.prompt product imgs.length) ::
            imgs.map (fun pi => Ev.deleteFile pi.genai_file_reference.name)) := by
        simp only [process_product, hloop, hr2]
      rw [hgoal, countDeletes_append, htr1, hcons]
      omega
  | ok st =>
      obtain ⟨text, upd⟩ := st
      rcases hw : write_result_to_bigquery env upd with ⟨r3, tr3⟩
      have htr3 : countDeletes file_name tr3 = 0 := by
        have h := countDeletes_write_result env file_name upd
        rw [hw] at h
        exact h
      have hgoal : ∀ r3x : Except ClassifyError Unit,
          write_result_to_bigquery env upd = (r3x, tr3) →
          (process_product env product).2 =
          tr1 ++ (Ev.generateCall ((imgs.map (fun pi => pi.genai_file_reference)).map
              GenaiFile.name)
              (buildTextPrompt env.prompt product imgs.length) ::
            imgs.map (fun pi => Ev.deleteFile pi.genai_file_reference.name)) ++ tr3 := by
        intro r3x hwx
        cases r3x with
        | error e => simp only [process_product, hloop, hr2, hwx]
        | ok u => simp only [process_product, hloop, hr2, hwx]
      rw [hgoal r3 hw, countDeletes_append, countDeletes_append, htr1, hcons, htr3]
      omega

/-- Witness for the amended C1 at a concrete input: the all-success run over
one image link releases files/f1 exactly once. -/
theorem cleanup_exactly_once_witness :
    countDeletes "files/f1" (process_product envImgHappy productHappy).2 = 1 :=
  (cleanup_exactly_once_after_upload_stage envImgHappy productHappy
    [⟨"http://a/1.png", ⟨"files/f1"⟩, some "image/png", 5, 7, "h1", none⟩]
    [.httpGet "http://a/1.png", .uploadCall "c1" (some "image/png"),
     .uploadOk "files/f1", .hashed "c1", .decoded "c1"]
    rfl "files/f1").trans (by decide)

/-- Wrapping a list in some and filtering out none gives the list back. -/
theorem filterMap_id_map_some (l : List String) :
    List.filterMap id (l.map some) = l := by
  induction l with
  | nil => rfl
  | cons a t ih => simp [ih]

/-- A product with a null primary image link contributes exactly its
additional image links, in order: the null primary is skipped silently. -/
theorem imageLinks_none (p : Product) (h : p.image_link = none) :
    imageLinks p = p.additional_image_links := by
  rw [imageLinks, h]
  simp [filterMap_id_map_some p.additional_image_links]

/-- C7: a product with a null primary image link has only its additional
links processed (the null primary is skipped, not an error); in particular,
with exactly one additional link and every boundary call succeeding,
process_product performs exactly one HTTP GET, one classification call
carrying exactly one file reference, and one warehouse insert of exactly one
row, then succeeds. -/
theorem process_product_null_primary (env : ClassifyEnv) (product : Product)
    (a content : String) (mime : Option String) (f : GenaiFile) (w h : Int)
    (lbl : LabeledImage) (text : String)
    (hnull : product.image_link = none)
    (hadd : product.additional_image_links = [a])
    (hget : env.http_get a = .ok (content, mime))
    (hup : env.files_upload content mime = .ok f)
    (hsize : env.image_size content = .ok (w, h))
    (hgen : env.generate_content env.model_name [f]
        (buildTextPrompt env.prompt product 1) = .ok ([lbl], text))
    (hins : ∀ rows, env.insert_rows_json env.table_id rows = .ok []) :
    (∀ p2 : Product, p2.image_link = none →
      imageLinks p2 = p2.additional_image_links) ∧
    process_product env product =
      (.ok (),
       [.httpGet a, .uploadCall content mime, .uploadOk f.name, .hashed content,
        .decoded content,
        .generateCall [f.name] (buildTextPrompt env.prompt product 1),
        .deleteFile f.name,
        .insertCall env.table_id 1]) := by
  refine ⟨imageLinks_none, ?_⟩
  have hlinks : imageLinks product = [a] := by
    rw [imageLinks_none product hnull, hadd]
  have hpi : process_image env a =
      (.ok ⟨a, f, mime, w, h, env.sha256_hex content, none⟩,
       [.httpGet a, .uploadCall content mime, .uploadOk f.name, .hashed content,
        .decoded content]) := by
    simp [process_image, hget, hup, hsize]
  have hloop : processImagesLoop env (imageLinks product) =
      (.ok [⟨a, f, mime, w, h, env.sha256_hex content, none⟩],
       [.httpGet a, .uploadCall content mime, .uploadOk f.name, .hashed content,
        .decoded content]) := by
    rw [hlinks]
    simp [processImagesLoop, hpi]
  have hrmq : run_multimodal_query env product
      [⟨a, f, mime, w, h, env.sha256_hex content, none⟩] =
      (.ok (text, [⟨a, f, mime, w, h, env.sha256_hex content, some lbl⟩]),
       [.generateCall [f.name] (buildTextPrompt env.prompt product 1),
        .deleteFile f.name]) := by
    simp [run_multimodal_query, hgen, assignLabels]
  have hwr : write_result_to_bigquery env
      [⟨a, f, mime, w, h, env.sha256_hex content, some lbl⟩] =
      (.ok (), [.insertCall env.table_id 1]) := by
    simp [write_result_to_bigquery, buildRows, buildRow, hins]
  simp [process_product, hloop, hrmq, hwr]

/-- Witness for C7 at a concrete input: a product with a null primary link
and one additional link runs end to end with one fetch, one classification
call over one file reference, and one single-row insert. -/
theorem process_product_null_primary_witness :
    process_product envImgHappy productC7 =
      (.ok (),
       [.httpGet "http://a/img.png", .uploadCall "c1" (some "image/png"),
        .uploadOk "files/f1", .hashed "c1", .decoded "c1",
        .generateCall ["files/f1"] (buildTextPrompt envImgHappy.prompt productC7 1),
        .deleteFile "files/f1",
        .insertCall "proj.ds.table" 1]) :=
  (process_product_null_primary envImgHappy productC7 "http://a/img.png" "c1"
    (some "image/png") ⟨"files/f1"⟩ 5 7 lblSilo "resp"
    rfl rfl rfl rfl rfl rfl (fun _ => rfl)).2

end ImageInventory
